import Mathlib

/-!
Verification development for the loan-assistance chat front end:
the message feed controller (ChatMessages) and the flow visualization
controller (AgentFlowPanel), embedded shallowly in Lean.

JavaScript objects used as string-keyed records are modelled as
association lists with unique keys; `rlookup` is property access
(`undefined` is `none`) and `setKey` is the spread-update
`\x7b...prev, [k]: v\x7d` (replace in place if the key exists, else append).
JavaScript string truthiness is `truthy`; numbers that can become `NaN`
through arithmetic on `undefined` are modelled by `JsNum`.
-/

set_option autoImplicit false

namespace LoanFlow

/-- truthy models JavaScript truthiness of an optional string:
`undefined` and the empty string are falsy, any other string truthy. -/
def truthy : Option String → Bool
  | none => false
  | some s => !(s = "")

/-- JsNum models a JavaScript number that is either an actual count or NaN
(the result of arithmetic on `undefined`). -/
inductive JsNum where
  | num (n : Nat)
  | nan
deriving DecidableEq, Repr

/-- jsAddOne models `x + 1` where `x` came from an optional numeric field:
`undefined + 1` and `NaN + 1` are both `NaN`. -/
def jsAddOne : Option JsNum → JsNum
  | some (JsNum.num n) => JsNum.num (n + 1)
  | some JsNum.nan => JsNum.nan
  | none => JsNum.nan

/-- jsGtZero models `x > 0` for the same optional numeric field
(`undefined > 0` and `NaN > 0` are both false). -/
def jsGtZero : Option JsNum → Bool
  | some (JsNum.num n) => decide (0 < n)
  | _ => false

section RecordMap

variable {α : Type}

/-- rlookup models JavaScript property access `m[k]` on a string-keyed
record held as an association list: `none` is `undefined`. -/
def rlookup : List (String × α) → String → Option α
  | [], _ => none
  | (k0, v0) :: rest, k => if k0 = k then some v0 else rlookup rest k

/-- hasKey is true when the record has an own property `k`. -/
def hasKey (m : List (String × α)) (k : String) : Bool :=
  (rlookup m k).isSome

/-- setKey models the object-spread update: the value of an
existing key is replaced in place, and a fresh key is appended at the end
(keys of the records built here are unique). -/
def setKey : List (String × α) → String → α → List (String × α)
  | [], k, v => [(k, v)]
  | (k0, v0) :: rest, k, v =>
      if k0 = k then (k, v) :: rest else (k0, v0) :: setKey rest k v

theorem rlookup_setKey_self (m : List (String × α)) (k : String) (v : α) :
    rlookup (setKey m k v) k = some v := by
  induction m with
  | nil => simp [setKey, rlookup]
  | cons p rest ih =>
      obtain ⟨k0, v0⟩ := p
      by_cases h : k0 = k
      · simp [setKey, h, rlookup]
      · simp [setKey, h, rlookup, ih]

theorem rlookup_setKey_ne (m : List (String × α)) (k k2 : String) (v : α)
    (h : k2 ≠ k) : rlookup (setKey m k v) k2 = rlookup m k2 := by
  have hk : ¬(k = k2) := fun hh => h hh.symm
  induction m with
  | nil => simp [setKey, rlookup, hk]
  | cons p rest ih =>
      obtain ⟨k0, v0⟩ := p
      by_cases h0 : k0 = k
      · subst h0
        simp [setKey, rlookup, hk]
      · by_cases h2 : k0 = k2
        · simp [setKey, h0, rlookup, h2, h]
        · simp [setKey, h0, rlookup, h2, ih]

theorem hasKey_setKey_of (m : List (String × α)) (k k2 : String) (v : α)
    (h : hasKey m k2 = true) : hasKey (setKey m k v) k2 = true := by
  by_cases hk : k2 = k
  · subst hk
    simp [hasKey, rlookup_setKey_self]
  · simpa [hasKey, rlookup_setKey_ne m k k2 v hk] using h

theorem hasKey_iff_exists (m : List (String × α)) (k : String) :
    hasKey m k = true ↔ ∃ v, rlookup m k = some v := by
  unfold hasKey
  cases rlookup m k <;> simp

end RecordMap

/-- NodeTrace is one timestamped text entry in a node processing history. -/
structure NodeTrace where
  timestamp : String
  text : String
deriving DecidableEq, Repr

/-- NodeDetails is one entry of the node-details record: static descriptive
text plus the optional accumulated trace history (`traces?`). -/
structure NodeDetails where
  title : String
  description : String
  details : String
  traces : Option (List NodeTrace) := none
deriving DecidableEq, Repr

/-- EdgeStats is one entry of the edge-stats record. Both fields are
optional because `updateEdgeAnimation` on an unknown edge id builds a
partial object holding only `isAnimated`. -/
structure EdgeStats where
  callCount : Option JsNum := none
  isAnimated : Option Bool := none
deriving DecidableEq, Repr

/-- CustomNodeData is the `data` payload of a diagram node. -/
structure CustomNodeData where
  label : String
  borderColor : Option String := none
  isProcessing : Option Bool := none
  processingComplete : Option Bool := none
deriving DecidableEq, Repr

/-- Position of a diagram node. -/
structure Position where
  x : Nat
  y : Nat
deriving DecidableEq, Repr

/-- CustomNode is a ReactFlow node as built by `createInitialLoanNodes`. -/
structure CustomNode where
  id : String
  type : String
  position : Position
  data : CustomNodeData
deriving DecidableEq, Repr

/-- FlowEdge is a ReactFlow edge as built by `createInitialLoanEdges`
(`stroke` stands for `style.stroke`; the display label is re-derived from
the edge stats by `syncEdges`). -/
structure FlowEdge where
  id : String
  source : String
  target : String
  type : String
  animated : Bool
  stroke : String
  label : String := ""
deriving DecidableEq, Repr

/-- bedrockColors, from BedrockTheme. Only the fields used by the node and
edge configuration are carried. -/
def bedrockColors : List (String × String) :=
  [("primary", "#006ce0"), ("secondary", "#232b37"), ("success", "#008559"),
   ("warning", "#fa6f00"), ("error", "#d14600"), ("purple", "#6842ff"),
   ("pink", "#d600ba"), ("teal", "#00a4bd"), ("lightBlue", "#0099ff"),
   ("background", "#ffffff"), ("border", "#dedee3"), ("text", "#161d26"),
   ("lightText", "#72747e")]

/-- createInitialLoanNodes builds the five fixed diagram nodes. -/
def createInitialLoanNodes : List CustomNode :=
  [{ id := "user", type := "customAgent", position := { x := 400, y := 0 },
     data := { label := "User", borderColor := some "#006ce0" } },
   { id := "supervisor", type := "customAgent", position := { x := 400, y := 150 },
     data := { label := "Supervisor", borderColor := some "#d14600" } },
   { id := "loanApplicant", type := "customAgent", position := { x := 200, y := 300 },
     data := { label := "Loan Applicant Agent", borderColor := some "#008559" } },
   { id := "broker", type := "customAgent", position := { x := 600, y := 300 },
     data := { label := "Broker Agent", borderColor := some "#fa6f00" } },
   { id := "response", type := "customAgent", position := { x := 400, y := 450 },
     data := { label := "Response", borderColor := some "#00a4bd" } }]

/-- createInitialLoanEdges builds the fixed diagram edges. -/
def createInitialLoanEdges : List FlowEdge :=
  [{ id := "e-user-supervisor", source := "user", target := "supervisor",
     type := "smoothstep", animated := false, stroke := "#006ce0" },
   { id := "e-supervisor-loanApplicant", source := "supervisor", target := "loanApplicant",
     type := "smoothstep", animated := false, stroke := "#008559" },
   { id := "e-supervisor-broker", source := "supervisor", target := "broker",
     type := "smoothstep", animated := false, stroke := "#fa6f00" },
   { id := "e-supervisor-response", source := "supervisor", target := "response",
     type := "smoothstep", animated := false, stroke := "#00a4bd" }]

/-- loanNodeDetailsMap is the static per-node descriptive record
(initially with no `traces` property). -/
def loanNodeDetailsMap : List (String × NodeDetails) :=
  [("supervisor",
    { title := "Loan Processing Supervisor",
      description := "Coordinates the loan application process and manages specialized agents.",
      details := "This agent evaluates user queries, directs requests to appropriate specialized agents, and synthesizes responses to provide comprehensive loan application assistance." }),
   ("loanApplicant",
    { title := "Loan Application Assistant Agent",
      description := "Specializes in applicant evaluation and document verification.",
      details := "Handles document verification, credit assessment, income validation, and eligibility checking. Ensures all applicant information meets lending requirements and compliance standards." }),
   ("broker",
    { title := "Broker Agent",
      description := "Manages loan products, rates, and application processing.",
      details := "Evaluates loan options, provides rate information, explains terms and conditions, and facilitates the application process. Ensures optimal loan product matching based on applicant profile." }),
   ("user",
    { title := "User",
      description := "Loan applicant or inquirer seeking assistance.",
      details := "The end user who interacts with the system to get information about loans, submit applications, or check application status." }),
   ("response",
    { title := "Response to User",
      description := "Final processed response to the user query.",
      details := "Synthesized information from all relevant agents, providing clear and actionable loan-related guidance or updates." })]

/-- initialEdgeStats is the initial `edgeStats` state of AgentFlowPanel. -/
def initialEdgeStats : List (String × EdgeStats) :=
  [("e-user-supervisor", { callCount := some (JsNum.num 0), isAnimated := some false }),
   ("e-supervisor-loanApplicant", { callCount := some (JsNum.num 0), isAnimated := some false }),
   ("e-supervisor-broker", { callCount := some (JsNum.num 0), isAnimated := some false }),
   ("e-supervisor-response", { callCount := some (JsNum.num 0), isAnimated := some false })]

/-- VizState is the mutable state owned by the flow visualization
controller: node list, edge list, edge-stats record, node-details record. -/
structure VizState where
  nodes : List CustomNode
  edges : List FlowEdge
  edgeStats : List (String × EdgeStats)
  nodeDetailsMap : List (String × NodeDetails)
deriving DecidableEq, Repr

/-- initialVizState is AgentFlowPanel state right after mounting with the
loan configuration. -/
def initialVizState : VizState :=
  { nodes := createInitialLoanNodes,
    edges := createInitialLoanEdges,
    edgeStats := initialEdgeStats,
    nodeDetailsMap := loanNodeDetailsMap }

/-- NodeStateFlags is the partial `state` argument of `updateNodeState`;
`some` marks a property present in the passed object. -/
structure NodeStateFlags where
  isProcessing : Option Bool := none
  processingComplete : Option Bool := none
deriving DecidableEq, Repr

/-- mergeFlags is the shallow merge of the partial flags into a node
`data` object: a property present in the update wins. -/
def mergeFlags (d : CustomNodeData) (f : NodeStateFlags) : CustomNodeData :=
  { d with
    isProcessing :=
      match f.isProcessing with
      | some b => some b
      | none => d.isProcessing,
    processingComplete :=
      match f.processingComplete with
      | some b => some b
      | none => d.processingComplete }

/-- updateEdgeAnimation merges the animated flag into the addressed
edge-stats entry; on an unknown edge id the spread of `undefined` produces
a fresh partial entry holding only `isAnimated`. It cannot throw. -/
def updateEdgeAnimation (edgeId : String) (isAnimated : Bool) (st : VizState) : VizState :=
  match rlookup st.edgeStats edgeId with
  | some es =>
      { st with edgeStats := setKey st.edgeStats edgeId { es with isAnimated := some isAnimated } }
  | none =>
      { st with edgeStats := setKey st.edgeStats edgeId { callCount := none, isAnimated := some isAnimated } }

/-- incrementEdgeCount reads `prev[edgeId].callCount + 1`; on an unknown
edge id the property access on `undefined` throws a TypeError, modelled by
`Except.error`. -/
def incrementEdgeCount (edgeId : String) (st : VizState) : Except String VizState :=
  match rlookup st.edgeStats edgeId with
  | some es =>
      Except.ok { st with
        edgeStats := setKey st.edgeStats edgeId { es with callCount := some (jsAddOne es.callCount) } }
  | none => Except.error "TypeError: cannot read callCount of undefined"

/-- updateNodeState maps over the node list and shallow-merges the flags
into the addressed node data; an unknown node id matches nothing. -/
def updateNodeState (nodeId : String) (state : NodeStateFlags) (st : VizState) : VizState :=
  { st with
    nodes := st.nodes.map (fun node =>
      if node.id = nodeId then { node with data := mergeFlags node.data state } else node) }

/-- addNodeTrace appends a trace to `prev[nodeId].traces || []`; on an
unknown node id the property access on `undefined` throws a TypeError. -/
def addNodeTrace (nodeId : String) (trace : NodeTrace) (st : VizState) : Except String VizState :=
  match rlookup st.nodeDetailsMap nodeId with
  | some d =>
      Except.ok { st with
        nodeDetailsMap := setKey st.nodeDetailsMap nodeId
          { d with traces := some (d.traces.getD [] ++ [trace]) } }
  | none => Except.error "TypeError: cannot read traces of undefined"

/-- edgeLabel derives the displayed label from an edge-stats call count:
a positive count renders as a call counter, anything else as empty. -/
def edgeLabel (c : Option JsNum) : String :=
  if jsGtZero c then
    (match c with
     | some (JsNum.num n) => toString n
     | _ => "") ++ " calls"
  else ""

/-- syncEdges is the effect that re-derives each displayed edge from the
edge-stats record on every stats change. -/
def syncEdges (stats : List (String × EdgeStats)) (edges : List FlowEdge) : List FlowEdge :=
  edges.map (fun edge =>
    { edge with
      animated := ((rlookup stats edge.id).bind EdgeStats.isAnimated).getD false,
      label := edgeLabel ((rlookup stats edge.id).bind EdgeStats.callCount) })

/-- DelayedClear records a pending `setTimeout` whose callback clears one
edge animation after the given delay (always 2000 ms in this program). -/
structure DelayedClear where
  delayMs : Nat
  edgeId : String
deriving DecidableEq, Repr

/-- runDelayedClear fires a pending timeout callback:
`updateEdgeAnimation(edgeId, false)`. -/
def runDelayedClear (a : DelayedClear) (st : VizState) : VizState :=
  updateEdgeAnimation a.edgeId false st

/-- TraceContent is the `content` object of a trace event. -/
structure TraceContent where
  action : Option String := none
  collaboratorName : Option String := none
  text : Option String := none
deriving DecidableEq, Repr

/-- TraceObj is the `trace` object of a parsed payload; `content` is
accessed with optional chaining in the source, hence optional here. -/
structure TraceObj where
  content : Option TraceContent := none
deriving DecidableEq, Repr

/-- traceAction is the optional chain `trace?.content?.action`. -/
def traceAction (t : Option TraceObj) : Option String :=
  (t.bind TraceObj.content).bind TraceContent.action

/-- traceCollab is the optional chain `trace?.content?.collaboratorName`. -/
def traceCollab (t : Option TraceObj) : Option String :=
  (t.bind TraceObj.content).bind TraceContent.collaboratorName

/-- traceText is the optional chain `trace?.content?.text`. -/
def traceText (t : Option TraceObj) : Option String :=
  (t.bind TraceObj.content).bind TraceContent.text

/-- ChatMsg is one chat record as delivered by the backend: identifier,
optional human text, optional bot text, optional JSON payload string,
creation timestamp. -/
structure ChatMsg where
  id : String
  human : Option String := none
  bot : Option String := none
  payload : Option String := none
  createdAt : String := ""
deriving DecidableEq, Repr

/-- ChatData is the `data` object of a subscription event
(`\x7b onChatByUserId \x7d`). -/
structure ChatData where
  onChatByUserId : Option ChatMsg := none
deriving DecidableEq, Repr

/-- chatBot is the optional chain `chatData?.onChatByUserId?.bot`. -/
def chatBot (d : Option ChatData) : Option String :=
  (d.bind ChatData.onChatByUserId).bind ChatMsg.bot

/-- chatPayload is the optional chain `data?.onChatByUserId?.payload`. -/
def chatPayload (d : Option ChatData) : Option String :=
  (d.bind ChatData.onChatByUserId).bind ChatMsg.payload

/-- DocumentT is one attached document of a payload. -/
structure DocumentT where
  id : String
  title : String
  imageUrl : String
deriving DecidableEq, Repr

/-- ParsedPayload is the JSON shape of an event payload. -/
structure ParsedPayload where
  documents : Option (List DocumentT) := none
  trace : Option TraceObj := none
deriving DecidableEq, Repr

/-- classifyTrace is the ordered, mutually exclusive if/else chain of
`handleTraceUpdate` (the final-response block follows it in
`handleTraceUpdate` itself). `now` stands for `new Date().toISOString()`.
The result carries the new visualization state together with the list of
scheduled animation-clear timeouts, in scheduling order; a thrown
TypeError surfaces as `Except.error`. -/
def classifyTrace (now : String) (trace : Option TraceObj)
    (st : VizState) : Except String (VizState × List DelayedClear) := do
  let traceEntry : NodeTrace := { timestamp := now, text := (traceText trace).getD "" }
  if traceAction trace = some "modelInvocationInput" ∧ truthy (traceCollab trace) = false then do
      let st1 ← if truthy (traceText trace) = true then addNodeTrace "supervisor" traceEntry st
                else pure st
      let st2 := updateEdgeAnimation "e-user-supervisor" true st1
      let st3 := updateEdgeAnimation "e-supervisor-response" true st2
      pure (st3, [DelayedClear.mk 2000 "e-user-supervisor"])
    else if traceAction trace = some "modelInvocationOutput" ∧ truthy (traceCollab trace) = true then do
      let nodeId :=
        if traceCollab trace = some "loan_application_assistant_agent" then "loanApplicant"
        else "broker"
      let st1 ← if truthy (traceText trace) = true then addNodeTrace nodeId traceEntry st
                else pure st
      let st2 ← incrementEdgeCount ("e-supervisor-" ++ nodeId) st1
      let st3 := updateEdgeAnimation ("e-supervisor-" ++ nodeId) true st2
      pure (st3, [DelayedClear.mk 2000 ("e-supervisor-" ++ nodeId)])
    else if traceAction trace = some "modelInvocationOutput" ∧ truthy (traceCollab trace) = false then do
      let st1 ← if truthy (traceText trace) = true then addNodeTrace "supervisor" traceEntry st
                else pure st
      pure (st1, ([] : List DelayedClear))
    else
      pure (st, ([] : List DelayedClear))

/-- handleTraceUpdate runs the trace classification chain and then,
independently of which branch fired, registers the final bot response:
when the driving event carries a truthy bot reply, a trace holding that
reply is appended to the response node and a 2-second clear of the
supervisor-to-response animation is scheduled. -/
def handleTraceUpdate (now : String) (trace : Option TraceObj) (chatData : Option ChatData)
    (st : VizState) : Except String (VizState × List DelayedClear) := do
  let branch ← classifyTrace now trace st
  if truthy (chatBot chatData) = true then do
    let responseTrace : NodeTrace := { timestamp := now, text := (chatBot chatData).getD "" }
    let st4 ← addNodeTrace "response" responseTrace branch.1
    pure (st4, branch.2 ++ [DelayedClear.mk 2000 "e-supervisor-response"])
  else
    pure branch

/-- onSubscriptionNext is the subscription `next` handler restricted to its
visualization effects: gate on a truthy payload, parse it, dispatch to
`handleTraceUpdate` for a trace or for a trace-less bot reply, and catch
any error (parse failure logged, state left as it was). The node and edge
ids `handleTraceUpdate` addresses are hard-coded and present in every
reachable state, so in this program no exception escapes it (proved below
for well-formed states); the catch therefore only ever fires on a parse
failure, where nothing has run yet. The trailing `refetch` and
`onNewMessage` calls touch no visualization state and are not modelled. -/
def onSubscriptionNext (parse : String → Except String ParsedPayload) (now : String)
    (data : Option ChatData) (st : VizState) : VizState × List DelayedClear :=
  let attempt : Except String (VizState × List DelayedClear) :=
    if truthy (chatPayload data) = true then do
      let parsedPayload ← parse ((chatPayload data).getD "")
      if parsedPayload.trace.isSome = true then
        handleTraceUpdate now parsedPayload.trace data st
      else if truthy (chatBot data) = true then
        handleTraceUpdate now none data st
      else
        pure (st, ([] : List DelayedClear))
    else
      pure (st, ([] : List DelayedClear))
  match attempt with
  | Except.ok r => r
  | Except.error _ => (st, [])

/-- FileType is the result of the extension classification. -/
inductive FileType where
  | pdf
  | image
  | unknown
deriving DecidableEq, Repr

/-- splitDot splits a character list at every dot, the way
`split(".")` does: the empty input gives one empty component and
adjacent dots give empty components. -/
def splitDot : List Char → List (List Char)
  | [] => [[]]
  | c :: rest =>
      if c = Char.ofNat 46 then [] :: splitDot rest
      else
        match splitDot rest with
        | [] => [[c]]
        | g :: gs => (c :: g) :: gs

/-- getFileType lower-cases the file name, splits on dots, takes the last
component (`pop` on the split, never empty) and classifies it. Strings are
taken apart into character lists because the classification compares the
extension characterwise. -/
def getFileType (fileName : String) : FileType :=
  let extension := (splitDot (fileName.toList.map Char.toLower)).getLast?
  if extension = some "pdf".toList then FileType.pdf
  else if ["png".toList, "jpg".toList, "jpeg".toList, "gif".toList].contains (extension.getD [])
    then FileType.image
  else FileType.unknown

/-- Preview is the shape of a rendered attachment: either the PDF link
(anchor with icons) or the image-thumbnail rendering (a clickable `img`
that opens the url in a new tab, followed by the title). These are the
only two branches `renderDocumentPreview` has. -/
inductive Preview where
  | pdfLink (title url : String)
  | thumbnail (title url : String)
deriving DecidableEq, Repr

/-- renderDocumentPreview classifies by `doc.id` and renders a PDF as a
link; every other document falls through to the thumbnail rendering. -/
def renderDocumentPreview (doc : DocumentT) : Preview :=
  if getFileType doc.id = FileType.pdf then Preview.pdfLink doc.title doc.imageUrl
  else Preview.thumbnail doc.title doc.imageUrl

/-- PreviewKind distinguishes the three preview shapes the specification
describes (the code itself never produces `plainLabel`). -/
inductive PreviewKind where
  | pdfLink
  | thumbnail
  | plainLabel
deriving DecidableEq, Repr

/-- renderedPreviewKind is the kind of preview the code actually renders. -/
def renderedPreviewKind (doc : DocumentT) : PreviewKind :=
  match renderDocumentPreview doc with
  | Preview.pdfLink _ _ => PreviewKind.pdfLink
  | Preview.thumbnail _ _ => PreviewKind.thumbnail

/-- Modelled from the spec: specPreviewKind is the file-type-specific
preview mapping the specification states (PDF to a link with icon, image
to a thumbnail, anything else to a plain label), written down for
comparison with the rendering in the code. -/
def specPreviewKind (doc : DocumentT) : PreviewKind :=
  match getFileType doc.id with
  | FileType.pdf => PreviewKind.pdfLink
  | FileType.image => PreviewKind.thumbnail
  | FileType.unknown => PreviewKind.plainLabel

/-- DisplayedTurn is one entry of the rendered turn list (the accumulator
element of `groupedMessages`). -/
structure DisplayedTurn where
  id : String
  human : Option String
  bot : Option String
  payload : Option String
  timestamp : String
deriving DecidableEq, Repr

/-- toDisplayedTurn builds the pushed object of the reduce. -/
def toDisplayedTurn (c : ChatMsg) : DisplayedTurn :=
  { id := c.id, human := c.human, bot := c.bot, payload := c.payload,
    timestamp := c.createdAt }

/-- groupedMessages is the reduce over the fetched chats: push exactly the
turns with a truthy human utterance; an absent chat list stays absent. -/
def groupedMessages (chats : Option (List ChatMsg)) : Option (List DisplayedTurn) :=
  chats.map (fun cs =>
    cs.foldl (fun acc chat =>
      if truthy chat.human = true then acc ++ [toDisplayedTurn chat] else acc) [])

/-- Modelled from the spec: ChatStep is one backend update of the chat list
(the list itself is owned by the managed backend, not by this front end).
The spec states turns are created when a user submits a message, mutated
in place once the paired bot reply arrives, and never deleted by this
layer, with the bot field transitioning at most once from absent to
present. -/
inductive ChatStep : List ChatMsg → List ChatMsg → Prop where
  | append (cs : List ChatMsg) (c : ChatMsg) : ChatStep cs (cs ++ [c])
  | completeBot (pre post : List ChatMsg) (c : ChatMsg) (b : String) (hb : c.bot = none) :
      ChatStep (pre ++ c :: post) (pre ++ { c with bot := some b } :: post)

/-- FeedEvent is one lifecycle or delivery event of the feed controller.
Modelled from the spec: the React effect contract (run the effect on
mount, run the cleanup and then the effect again when the identity
dependency changes, run the cleanup on unmount) is runtime behaviour not
present in the sources. -/
inductive FeedEvent where
  | mount (uid : String)
  | identityChange (uid : String)
  | unmount
  | deliver (fetched : List ChatMsg)
deriving DecidableEq, Repr

/-- FeedCtl is the feed controller's lifecycle state: the identities of the
currently open subscriptions and the fetched chat list that drives the
displayed turn list. -/
structure FeedCtl where
  subs : List String
  chats : List ChatMsg
deriving DecidableEq, Repr

/-- Modelled from the spec: feedStep is the effect of one lifecycle or
delivery event. Mounting subscribes; an identity change runs the cleanup
(unsubscribing the open subscription) and then subscribes for the new
identity; unmounting runs the cleanup; a delivered event triggers the
refetch that replaces the chat list, but only while a subscription is
open. -/
def feedStep (s : FeedCtl) : FeedEvent → FeedCtl
  | FeedEvent.mount uid => { s with subs := s.subs ++ [uid] }
  | FeedEvent.identityChange uid => { s with subs := s.subs.dropLast ++ [uid] }
  | FeedEvent.unmount => { s with subs := s.subs.dropLast }
  | FeedEvent.deliver fetched =>
      if s.subs.isEmpty then s else { s with chats := fetched }

/-- deliverAll folds a sequence of delivered events into the controller. -/
def deliverAll (s : FeedCtl) (evs : List (List ChatMsg)) : FeedCtl :=
  evs.foldl (fun acc cs => feedStep acc (FeedEvent.deliver cs)) s

/-- tracesOf reads the accumulated trace history of a node
(`prev[nodeId].traces || []`, empty when the node is unknown). -/
def tracesOf (st : VizState) (nodeId : String) : List NodeTrace :=
  match rlookup st.nodeDetailsMap nodeId with
  | some d => d.traces.getD []
  | none => []

/-- isAnimatedOf reads the animated flag of an edge-stats entry. -/
def isAnimatedOf (st : VizState) (edgeId : String) : Option Bool :=
  (rlookup st.edgeStats edgeId).bind EdgeStats.isAnimated

/-- callCountOf reads the call count of an edge-stats entry. -/
def callCountOf (st : VizState) (edgeId : String) : Option JsNum :=
  (rlookup st.edgeStats edgeId).bind EdgeStats.callCount

/-- stateOr extracts the state from a fallible update, falling back to the
given state when the update threw. -/
def stateOr (r : Except String VizState) (dflt : VizState) : VizState :=
  match r with
  | Except.ok s => s
  | Except.error _ => dflt

/-- vizOf extracts the resulting visualization state of a trace-handler
run, falling back to the given state when the handler threw. -/
def vizOf (r : Except String (VizState × List DelayedClear)) (dflt : VizState) : VizState :=
  match r with
  | Except.ok p => p.1
  | Except.error _ => dflt

/-- actsOf extracts the scheduled timeouts of a trace-handler run. -/
def actsOf (r : Except String (VizState × List DelayedClear)) : List DelayedClear :=
  match r with
  | Except.ok p => p.2
  | Except.error _ => []

/-- isOk is true when the fallible computation did not throw. -/
def isOk (r : Except String (VizState × List DelayedClear)) : Bool :=
  match r with
  | Except.ok _ => true
  | Except.error _ => false

/-- WF states that the four fixed edge-stats keys and the five fixed
node-details keys are present, as they are in every reachable state. -/
def WF (st : VizState) : Prop :=
  hasKey st.edgeStats "e-user-supervisor" = true ∧
  hasKey st.edgeStats "e-supervisor-loanApplicant" = true ∧
  hasKey st.edgeStats "e-supervisor-broker" = true ∧
  hasKey st.edgeStats "e-supervisor-response" = true ∧
  hasKey st.nodeDetailsMap "supervisor" = true ∧
  hasKey st.nodeDetailsMap "loanApplicant" = true ∧
  hasKey st.nodeDetailsMap "broker" = true ∧
  hasKey st.nodeDetailsMap "response" = true

theorem setKey_append_of_not_hasKey {α : Type} (m : List (String × α)) (k : String) (v : α)
    (h : hasKey m k = false) : setKey m k v = m ++ [(k, v)] := by
  induction m with
  | nil => simp [setKey]
  | cons p rest ih =>
      obtain ⟨k0, v0⟩ := p
      by_cases h0 : k0 = k
      · subst h0
        simp [hasKey, rlookup] at h
      · simp [hasKey, rlookup, h0] at h
        simp [setKey, h0, ih (by simp [hasKey, h])]

theorem updateEdgeAnimation_nodes (e : String) (b : Bool) (st : VizState) :
    (updateEdgeAnimation e b st).nodes = st.nodes := by
  unfold updateEdgeAnimation
  cases rlookup st.edgeStats e <;> rfl

theorem updateEdgeAnimation_edges (e : String) (b : Bool) (st : VizState) :
    (updateEdgeAnimation e b st).edges = st.edges := by
  unfold updateEdgeAnimation
  cases rlookup st.edgeStats e <;> rfl

theorem updateEdgeAnimation_nodeDetailsMap (e : String) (b : Bool) (st : VizState) :
    (updateEdgeAnimation e b st).nodeDetailsMap = st.nodeDetailsMap := by
  unfold updateEdgeAnimation
  cases rlookup st.edgeStats e <;> rfl

theorem tracesOf_updateEdgeAnimation (e : String) (b : Bool) (st : VizState) (nid : String) :
    tracesOf (updateEdgeAnimation e b st) nid = tracesOf st nid := by
  unfold tracesOf
  rw [updateEdgeAnimation_nodeDetailsMap]

theorem isAnimatedOf_updateEdgeAnimation_self (e : String) (b : Bool) (st : VizState) :
    isAnimatedOf (updateEdgeAnimation e b st) e = some b := by
  unfold isAnimatedOf updateEdgeAnimation
  cases h : rlookup st.edgeStats e <;> simp [h, rlookup_setKey_self]

theorem rlookup_updateEdgeAnimation_ne (e e2 : String) (b : Bool) (st : VizState)
    (h : e2 ≠ e) :
    rlookup (updateEdgeAnimation e b st).edgeStats e2 = rlookup st.edgeStats e2 := by
  unfold updateEdgeAnimation
  cases h0 : rlookup st.edgeStats e <;> simp [h0, rlookup_setKey_ne _ _ _ _ h]

theorem hasKey_updateEdgeAnimation (e e2 : String) (b : Bool) (st : VizState)
    (h : hasKey st.edgeStats e2 = true) :
    hasKey (updateEdgeAnimation e b st).edgeStats e2 = true := by
  unfold updateEdgeAnimation
  cases h0 : rlookup st.edgeStats e <;> simp [h0, hasKey_setKey_of _ _ _ _ h]

theorem WF_updateEdgeAnimation (e : String) (b : Bool) (st : VizState) (h : WF st) :
    WF (updateEdgeAnimation e b st) := by
  obtain ⟨h1, h2, h3, h4, h5, h6, h7, h8⟩ := h
  refine ⟨?_, ?_, ?_, ?_, ?_, ?_, ?_, ?_⟩ <;>
    first
      | exact hasKey_updateEdgeAnimation _ _ _ _ (by assumption)
      | (rw [updateEdgeAnimation_nodeDetailsMap]; assumption)

theorem incrementEdgeCount_ok (e : String) (st : VizState) (es : EdgeStats)
    (h : rlookup st.edgeStats e = some es) :
    incrementEdgeCount e st =
      Except.ok { st with
        edgeStats := setKey st.edgeStats e { es with callCount := some (jsAddOne es.callCount) } } := by
  unfold incrementEdgeCount
  rw [h]

theorem incrementEdgeCount_err (e : String) (st : VizState)
    (h : rlookup st.edgeStats e = none) :
    incrementEdgeCount e st = Except.error "TypeError: cannot read callCount of undefined" := by
  unfold incrementEdgeCount
  rw [h]

theorem addNodeTrace_ok (nid : String) (tr : NodeTrace) (st : VizState) (d : NodeDetails)
    (h : rlookup st.nodeDetailsMap nid = some d) :
    addNodeTrace nid tr st =
      Except.ok { st with
        nodeDetailsMap := setKey st.nodeDetailsMap nid
          { d with traces := some (d.traces.getD [] ++ [tr]) } } := by
  unfold addNodeTrace
  rw [h]

theorem addNodeTrace_err (nid : String) (tr : NodeTrace) (st : VizState)
    (h : rlookup st.nodeDetailsMap nid = none) :
    addNodeTrace nid tr st = Except.error "TypeError: cannot read traces of undefined" := by
  unfold addNodeTrace
  rw [h]

theorem addNodeTrace_spec (nid : String) (tr : NodeTrace) (st : VizState) (d : NodeDetails)
    (h : rlookup st.nodeDetailsMap nid = some d) :
    ∃ st2, addNodeTrace nid tr st = Except.ok st2 ∧
      st2.nodes = st.nodes ∧ st2.edges = st.edges ∧ st2.edgeStats = st.edgeStats ∧
      tracesOf st2 nid = tracesOf st nid ++ [tr] ∧
      (∀ n2, n2 ≠ nid → rlookup st2.nodeDetailsMap n2 = rlookup st.nodeDetailsMap n2) ∧
      (∀ n2, hasKey st.nodeDetailsMap n2 = true → hasKey st2.nodeDetailsMap n2 = true) := by
  refine ⟨_, addNodeTrace_ok nid tr st d h, rfl, rfl, rfl, ?_, ?_, ?_⟩
  · unfold tracesOf
    simp [rlookup_setKey_self, h]
  · intro n2 hne
    simp [rlookup_setKey_ne _ _ _ _ hne]
  · intro n2 hk
    exact hasKey_setKey_of _ _ _ _ hk

theorem incrementEdgeCount_spec (e : String) (st : VizState) (es : EdgeStats)
    (h : rlookup st.edgeStats e = some es) :
    ∃ st2, incrementEdgeCount e st = Except.ok st2 ∧
      st2.nodes = st.nodes ∧ st2.edges = st.edges ∧ st2.nodeDetailsMap = st.nodeDetailsMap ∧
      rlookup st2.edgeStats e = some { es with callCount := some (jsAddOne es.callCount) } ∧
      (∀ e2, e2 ≠ e → rlookup st2.edgeStats e2 = rlookup st.edgeStats e2) ∧
      (∀ e2, hasKey st.edgeStats e2 = true → hasKey st2.edgeStats e2 = true) := by
  refine ⟨_, incrementEdgeCount_ok e st es h, rfl, rfl, rfl, ?_, ?_, ?_⟩
  · simp [rlookup_setKey_self]
  · intro e2 hne
    simp [rlookup_setKey_ne _ _ _ _ hne]
  · intro e2 hk
    exact hasKey_setKey_of _ _ _ _ hk

theorem callCountOf_updateEdgeAnimation_known (e : String) (b : Bool) (st : VizState)
    (es2 : EdgeStats) (h : rlookup st.edgeStats e = some es2) :
    callCountOf (updateEdgeAnimation e b st) e = es2.callCount := by
  unfold callCountOf updateEdgeAnimation
  rw [h]
  simp [rlookup_setKey_self]

theorem tracesOf_congr (st1 st2 : VizState) (n : String)
    (h : st2.nodeDetailsMap = st1.nodeDetailsMap) : tracesOf st2 n = tracesOf st1 n := by
  unfold tracesOf
  rw [h]

theorem updateNodeState_noop (nid : String) (f : NodeStateFlags) (st : VizState)
    (h : ∀ node ∈ st.nodes, node.id ≠ nid) : updateNodeState nid f st = st := by
  unfold updateNodeState
  have hmap : ∀ (l : List CustomNode), (∀ node ∈ l, node.id ≠ nid) →
      l.map (fun node =>
        if node.id = nid then { node with data := mergeFlags node.data f } else node) = l := by
    intro l hl
    induction l with
    | nil => rfl
    | cons a rest ih =>
        have ha := hl a (by simp)
        simp only [List.map_cons, if_neg ha]
        rw [ih (fun n hn => hl n (by simp [hn]))]
  rw [hmap st.nodes h]

theorem ok_bind {α β : Type} (a : α) (f : α → Except String β) :
    (Except.ok a : Except String α) >>= f = f a := rfl

theorem err_bind {α β : Type} (e : String) (f : α → Except String β) :
    (Except.error e : Except String α) >>= f = Except.error e := rfl

theorem pure_ok {α : Type} (a : α) : (pure a : Except String α) = Except.ok a := rfl

theorem classifyTrace_input_spec (now : String) (tr : Option TraceObj) (st : VizState)
    (d : NodeDetails)
    (h1 : traceAction tr = some "modelInvocationInput")
    (h2 : truthy (traceCollab tr) = false)
    (hsup : rlookup st.nodeDetailsMap "supervisor" = some d) :
    ∃ st3, classifyTrace now tr st = Except.ok (st3, [DelayedClear.mk 2000 "e-user-supervisor"]) ∧
      (tracesOf st3 "supervisor").length = (tracesOf st "supervisor").length +
        (if truthy (traceText tr) = true then 1 else 0) ∧
      isAnimatedOf st3 "e-user-supervisor" = some true ∧
      isAnimatedOf st3 "e-supervisor-response" = some true ∧
      (∀ n2, n2 ≠ "supervisor" → rlookup st3.nodeDetailsMap n2 = rlookup st.nodeDetailsMap n2) ∧
      (∀ n2, hasKey st.nodeDetailsMap n2 = true → hasKey st3.nodeDetailsMap n2 = true) ∧
      (∀ e2, hasKey st.edgeStats e2 = true → hasKey st3.edgeStats e2 = true) := by
  have hc1 : traceAction tr = some "modelInvocationInput" ∧ truthy (traceCollab tr) = false :=
    ⟨h1, h2⟩
  unfold classifyTrace
  rw [if_pos hc1]
  by_cases ht : truthy (traceText tr) = true
  · obtain ⟨stA, hA, hAn, hAe, hAes, hAtr, hAother, hAkeys⟩ :=
      addNodeTrace_spec "supervisor"
        { timestamp := now, text := (traceText tr).getD "" } st d hsup
    rw [if_pos ht, hA, ok_bind]
    simp only [pure_ok]
    refine ⟨_, rfl, ?_, ?_, ?_, ?_, ?_, ?_⟩
    · rw [tracesOf_updateEdgeAnimation, tracesOf_updateEdgeAnimation, hAtr, if_pos ht]
      simp
    · have hne : "e-user-supervisor" ≠ "e-supervisor-response" := by decide
      unfold isAnimatedOf
      rw [rlookup_updateEdgeAnimation_ne _ _ _ _ hne]
      exact isAnimatedOf_updateEdgeAnimation_self _ _ _
    · exact isAnimatedOf_updateEdgeAnimation_self _ _ _
    · intro n2 hn2
      rw [updateEdgeAnimation_nodeDetailsMap, updateEdgeAnimation_nodeDetailsMap]
      exact hAother n2 hn2
    · intro n2 hk
      rw [updateEdgeAnimation_nodeDetailsMap, updateEdgeAnimation_nodeDetailsMap]
      exact hAkeys n2 hk
    · intro e2 hk
      have hk2 : hasKey stA.edgeStats e2 = true := by rw [hAes]; exact hk
      exact hasKey_updateEdgeAnimation _ _ _ _ (hasKey_updateEdgeAnimation _ _ _ _ hk2)
  · rw [if_neg ht, pure_ok, ok_bind]
    simp only [pure_ok]
    refine ⟨_, rfl, ?_, ?_, ?_, ?_, ?_, ?_⟩
    · rw [tracesOf_updateEdgeAnimation, tracesOf_updateEdgeAnimation, if_neg ht]
      simp
    · have hne : "e-user-supervisor" ≠ "e-supervisor-response" := by decide
      unfold isAnimatedOf
      rw [rlookup_updateEdgeAnimation_ne _ _ _ _ hne]
      exact isAnimatedOf_updateEdgeAnimation_self _ _ _
    · exact isAnimatedOf_updateEdgeAnimation_self _ _ _
    · intro n2 _
      rw [updateEdgeAnimation_nodeDetailsMap, updateEdgeAnimation_nodeDetailsMap]
    · intro n2 hk
      rw [updateEdgeAnimation_nodeDetailsMap, updateEdgeAnimation_nodeDetailsMap]
      exact hk
    · intro e2 hk
      exact hasKey_updateEdgeAnimation _ _ _ _ (hasKey_updateEdgeAnimation _ _ _ _ hk)

theorem classifyTrace_output_collab_spec (now : String) (tr : Option TraceObj) (st : VizState)
    (nodeId : String) (d : NodeDetails) (es : EdgeStats)
    (h1 : traceAction tr = some "modelInvocationOutput")
    (h2 : truthy (traceCollab tr) = true)
    (hnid : nodeId = if traceCollab tr = some "loan_application_assistant_agent"
                     then "loanApplicant" else "broker")
    (hnd : rlookup st.nodeDetailsMap nodeId = some d)
    (hes : rlookup st.edgeStats ("e-supervisor-" ++ nodeId) = some es) :
    ∃ st3, classifyTrace now tr st =
        Except.ok (st3, [DelayedClear.mk 2000 ("e-supervisor-" ++ nodeId)]) ∧
      callCountOf st3 ("e-supervisor-" ++ nodeId) = some (jsAddOne es.callCount) ∧
      isAnimatedOf st3 ("e-supervisor-" ++ nodeId) = some true ∧
      (∀ e2, e2 ≠ "e-supervisor-" ++ nodeId →
        rlookup st3.edgeStats e2 = rlookup st.edgeStats e2) ∧
      (∀ n2, n2 ≠ nodeId → rlookup st3.nodeDetailsMap n2 = rlookup st.nodeDetailsMap n2) ∧
      (tracesOf st3 nodeId).length = (tracesOf st nodeId).length +
        (if truthy (traceText tr) = true then 1 else 0) ∧
      (∀ n2, hasKey st.nodeDetailsMap n2 = true → hasKey st3.nodeDetailsMap n2 = true) ∧
      (∀ e2, hasKey st.edgeStats e2 = true → hasKey st3.edgeStats e2 = true) := by
  have hc1 : ¬(traceAction tr = some "modelInvocationInput" ∧
      truthy (traceCollab tr) = false) := by
    intro hc
    rw [h1] at hc
    exact absurd hc.1 (by decide)
  have hc2 : traceAction tr = some "modelInvocationOutput" ∧ truthy (traceCollab tr) = true :=
    ⟨h1, h2⟩
  unfold classifyTrace
  rw [if_neg hc1, if_pos hc2]
  simp only [← hnid]
  by_cases ht : truthy (traceText tr) = true
  · obtain ⟨stA, hA, hAn, hAe, hAes, hAtr, hAother, hAkeys⟩ :=
      addNodeTrace_spec nodeId
        { timestamp := now, text := (traceText tr).getD "" } st d hnd
    have hesA : rlookup stA.edgeStats ("e-supervisor-" ++ nodeId) = some es := by
      rw [hAes]; exact hes
    obtain ⟨stB, hB, hBn, hBe, hBnd, hBself, hBother, hBkeys⟩ :=
      incrementEdgeCount_spec ("e-supervisor-" ++ nodeId) stA es hesA
    rw [if_pos ht, hA, ok_bind, hB, ok_bind]
    simp only [pure_ok]
    refine ⟨_, rfl, ?_, ?_, ?_, ?_, ?_, ?_, ?_⟩
    · rw [callCountOf_updateEdgeAnimation_known _ _ _ _ hBself]
    · exact isAnimatedOf_updateEdgeAnimation_self _ _ _
    · intro e2 hne
      rw [rlookup_updateEdgeAnimation_ne _ _ _ _ hne, hBother e2 hne, hAes]
    · intro n2 hn2
      rw [updateEdgeAnimation_nodeDetailsMap, hBnd]
      exact hAother n2 hn2
    · rw [tracesOf_updateEdgeAnimation, tracesOf_congr stA stB nodeId hBnd, hAtr, if_pos ht]
      simp
    · intro n2 hk
      rw [updateEdgeAnimation_nodeDetailsMap, hBnd]
      exact hAkeys n2 hk
    · intro e2 hk
      have hk2 : hasKey stA.edgeStats e2 = true := by rw [hAes]; exact hk
      exact hasKey_updateEdgeAnimation _ _ _ _ (hBkeys e2 hk2)
  · obtain ⟨stB, hB, hBn, hBe, hBnd, hBself, hBother, hBkeys⟩ :=
      incrementEdgeCount_spec ("e-supervisor-" ++ nodeId) st es hes
    rw [if_neg ht, pure_ok, ok_bind, hB, ok_bind]
    simp only [pure_ok]
    refine ⟨_, rfl, ?_, ?_, ?_, ?_, ?_, ?_, ?_⟩
    · rw [callCountOf_updateEdgeAnimation_known _ _ _ _ hBself]
    · exact isAnimatedOf_updateEdgeAnimation_self _ _ _
    · intro e2 hne
      rw [rlookup_updateEdgeAnimation_ne _ _ _ _ hne, hBother e2 hne]
    · intro n2 _
      rw [updateEdgeAnimation_nodeDetailsMap, hBnd]
    · rw [tracesOf_updateEdgeAnimation, tracesOf_congr st stB nodeId hBnd, if_neg ht]
      simp
    · intro n2 hk
      rw [updateEdgeAnimation_nodeDetailsMap, hBnd]
      exact hk
    · intro e2 hk
      exact hasKey_updateEdgeAnimation _ _ _ _ (hBkeys e2 hk)

theorem classifyTrace_output_nocollab_spec (now : String) (tr : Option TraceObj) (st : VizState)
    (d : NodeDetails)
    (h1 : traceAction tr = some "modelInvocationOutput")
    (h2 : truthy (traceCollab tr) = false)
    (hsup : rlookup st.nodeDetailsMap "supervisor" = some d) :
    ∃ st1, classifyTrace now tr st = Except.ok (st1, ([] : List DelayedClear)) ∧
      st1.edgeStats = st.edgeStats ∧
      (tracesOf st1 "supervisor").length = (tracesOf st "supervisor").length +
        (if truthy (traceText tr) = true then 1 else 0) ∧
      (∀ n2, n2 ≠ "supervisor" → rlookup st1.nodeDetailsMap n2 = rlookup st.nodeDetailsMap n2) ∧
      (∀ n2, hasKey st.nodeDetailsMap n2 = true → hasKey st1.nodeDetailsMap n2 = true) := by
  have hc1 : ¬(traceAction tr = some "modelInvocationInput" ∧
      truthy (traceCollab tr) = false) := by
    intro hc
    rw [h1] at hc
    exact absurd hc.1 (by decide)
  have hc2 : ¬(traceAction tr = some "modelInvocationOutput" ∧
      truthy (traceCollab tr) = true) := by
    intro hc
    rw [h2] at hc
    exact absurd hc.2 (by decide)
  have hc3 : traceAction tr = some "modelInvocationOutput" ∧ truthy (traceCollab tr) = false :=
    ⟨h1, h2⟩
  unfold classifyTrace
  rw [if_neg hc1, if_neg hc2, if_pos hc3]
  by_cases ht : truthy (traceText tr) = true
  · obtain ⟨stA, hA, hAn, hAe, hAes, hAtr, hAother, hAkeys⟩ :=
      addNodeTrace_spec "supervisor"
        { timestamp := now, text := (traceText tr).getD "" } st d hsup
    rw [if_pos ht, hA, ok_bind]
    simp only [pure_ok]
    refine ⟨_, rfl, hAes, ?_, hAother, hAkeys⟩
    rw [hAtr, if_pos ht]
    simp
  · rw [if_neg ht, pure_ok, ok_bind]
    simp only [pure_ok]
    refine ⟨_, rfl, rfl, ?_, fun n2 _ => rfl, fun n2 hk => hk⟩
    rw [if_neg ht]
    simp

theorem classifyTrace_skip (now : String) (tr : Option TraceObj) (st : VizState)
    (hc1 : ¬(traceAction tr = some "modelInvocationInput" ∧ truthy (traceCollab tr) = false))
    (hc2 : ¬(traceAction tr = some "modelInvocationOutput" ∧ truthy (traceCollab tr) = true))
    (hc3 : ¬(traceAction tr = some "modelInvocationOutput" ∧ truthy (traceCollab tr) = false)) :
    classifyTrace now tr st = Except.ok (st, ([] : List DelayedClear)) := by
  unfold classifyTrace
  rw [if_neg hc1, if_neg hc2, if_neg hc3]
  rfl

theorem handleTraceUpdate_nobot (now : String) (tr : Option TraceObj) (cd : Option ChatData)
    (st : VizState) (h3 : truthy (chatBot cd) = false) :
    handleTraceUpdate now tr cd st = classifyTrace now tr st := by
  unfold handleTraceUpdate
  cases hc : classifyTrace now tr st with
  | ok p =>
      rw [ok_bind, if_neg (by simp [h3])]
      rfl
  | error e => rw [err_bind]

theorem handleTraceUpdate_bot (now : String) (tr : Option TraceObj) (cd : Option ChatData)
    (st stC stD : VizState) (acts : List DelayedClear)
    (h3 : truthy (chatBot cd) = true)
    (hC : classifyTrace now tr st = Except.ok (stC, acts))
    (hD : addNodeTrace "response"
      { timestamp := now, text := (chatBot cd).getD "" } stC = Except.ok stD) :
    handleTraceUpdate now tr cd st =
      Except.ok (stD, acts ++ [DelayedClear.mk 2000 "e-supervisor-response"]) := by
  unfold handleTraceUpdate
  rw [hC, ok_bind, if_pos h3]
  simp only []
  rw [hD, ok_bind]
  rfl

theorem classifyTrace_WF (now : String) (tr : Option TraceObj) (st : VizState) (hWF : WF st) :
    ∃ stC acts, classifyTrace now tr st = Except.ok (stC, acts) ∧
      rlookup stC.nodeDetailsMap "response" = rlookup st.nodeDetailsMap "response" := by
  obtain ⟨he1, he2, he3, he4, hn1, hn2, hn3, hn4⟩ := hWF
  by_cases hc1 : traceAction tr = some "modelInvocationInput" ∧ truthy (traceCollab tr) = false
  · obtain ⟨d, hd⟩ := (hasKey_iff_exists _ _).1 hn1
    obtain ⟨st3, hrun, _, _, _, hother, _, _⟩ :=
      classifyTrace_input_spec now tr st d hc1.1 hc1.2 hd
    exact ⟨st3, _, hrun, hother "response" (by decide)⟩
  · by_cases hc2 : traceAction tr = some "modelInvocationOutput" ∧ truthy (traceCollab tr) = true
    · by_cases hcl : traceCollab tr = some "loan_application_assistant_agent"
      · obtain ⟨d, hd⟩ := (hasKey_iff_exists _ _).1 hn2
        obtain ⟨es, hes⟩ := (hasKey_iff_exists _ _).1 he2
        obtain ⟨st3, hrun, _, _, _, hother, _, _, _⟩ :=
          classifyTrace_output_collab_spec now tr st "loanApplicant" d es hc2.1 hc2.2
            (by rw [if_pos hcl]) hd hes
        exact ⟨st3, _, hrun, hother "response" (by decide)⟩
      · obtain ⟨d, hd⟩ := (hasKey_iff_exists _ _).1 hn3
        obtain ⟨es, hes⟩ := (hasKey_iff_exists _ _).1 he3
        obtain ⟨st3, hrun, _, _, _, hother, _, _, _⟩ :=
          classifyTrace_output_collab_spec now tr st "broker" d es hc2.1 hc2.2
            (by rw [if_neg hcl]) hd hes
        exact ⟨st3, _, hrun, hother "response" (by decide)⟩
    · by_cases hc3 : traceAction tr = some "modelInvocationOutput" ∧ truthy (traceCollab tr) = false
      · obtain ⟨d, hd⟩ := (hasKey_iff_exists _ _).1 hn1
        obtain ⟨st1, hrun, _, _, hother, _⟩ :=
          classifyTrace_output_nocollab_spec now tr st d hc3.1 hc3.2 hd
        exact ⟨st1, _, hrun, hother "response" (by decide)⟩
      · exact ⟨st, _, classifyTrace_skip now tr st hc1 hc2 hc3, rfl⟩

theorem rlookup_eq_none_of_not_hasKey {α : Type} (m : List (String × α)) (k : String)
    (h : hasKey m k = false) : rlookup m k = none := by
  unfold hasKey at h
  cases hx : rlookup m k with
  | none => rfl
  | some v => rw [hx] at h; simp at h

/-- C1 (amended): calls on unknown identifiers behave as follows.
`updateNodeState` with an unknown node id is a no-op and never throws.
`updateEdgeAnimation` with an unknown edge id never throws, but it is not
a no-op: it appends a fresh partial stats entry holding only the animated
flag. `incrementEdgeCount` and `addNodeTrace` with unknown identifiers
throw a TypeError (reading a property of `undefined`). -/
theorem c1_amended (st : VizState) (edgeId nodeId nodeId2 : String) (b : Bool)
    (f : NodeStateFlags) (tr : NodeTrace) :
    (hasKey st.edgeStats edgeId = false →
      incrementEdgeCount edgeId st =
        Except.error "TypeError: cannot read callCount of undefined" ∧
      (updateEdgeAnimation edgeId b st).edgeStats =
        st.edgeStats ++ [(edgeId, EdgeStats.mk none (some b))] ∧
      updateEdgeAnimation edgeId b st ≠ st) ∧
    ((∀ node ∈ st.nodes, node.id ≠ nodeId) → updateNodeState nodeId f st = st) ∧
    (hasKey st.nodeDetailsMap nodeId2 = false →
      addNodeTrace nodeId2 tr st =
        Except.error "TypeError: cannot read traces of undefined") := by
  refine ⟨?_, updateNodeState_noop nodeId f st, ?_⟩
  · intro h
    have hr : rlookup st.edgeStats edgeId = none :=
      rlookup_eq_none_of_not_hasKey st.edgeStats edgeId h
    have happ : (updateEdgeAnimation edgeId b st).edgeStats =
        st.edgeStats ++ [(edgeId, EdgeStats.mk none (some b))] := by
      unfold updateEdgeAnimation
      rw [hr]
      exact setKey_append_of_not_hasKey st.edgeStats edgeId _ h
    refine ⟨incrementEdgeCount_err edgeId st hr, happ, ?_⟩
    intro heq
    rw [heq] at happ
    have hlen := congrArg List.length happ
    simp at hlen
  · intro h
    exact addNodeTrace_err nodeId2 tr st
      (rlookup_eq_none_of_not_hasKey st.nodeDetailsMap nodeId2 h)

/-- C1 (counterexample): the claim says every call with an unknown
identifier is a no-op and never throws; from the initial state,
`incrementEdgeCount` on an unknown edge id throws a TypeError, and
`updateEdgeAnimation` on an unknown edge id grows the edge-stats record
by one entry, so it is not a no-op either. -/
theorem c1_counterexample :
    incrementEdgeCount "e-unknown-edge" initialVizState =
      Except.error "TypeError: cannot read callCount of undefined" ∧
    (updateEdgeAnimation "e-unknown-edge" true initialVizState).edgeStats.length =
      initialVizState.edgeStats.length + 1 :=
  ⟨rfl, rfl⟩

/-- C1 (witness): the amended claim evaluated from the initial state at
the unknown edge id "e-unknown-edge" and the unknown node id "ghost". -/
theorem c1_witness :
    incrementEdgeCount "e-unknown-edge" initialVizState =
      Except.error "TypeError: cannot read callCount of undefined" ∧
    updateNodeState "ghost" (NodeStateFlags.mk (some true) none) initialVizState =
      initialVizState ∧
    addNodeTrace "ghost" (NodeTrace.mk "t1" "hello") initialVizState =
      Except.error "TypeError: cannot read traces of undefined" ∧
    updateEdgeAnimation "e-unknown-edge" true initialVizState ≠ initialVizState :=
  ⟨((c1_amended initialVizState "e-unknown-edge" "ghost" "ghost" true
      (NodeStateFlags.mk (some true) none) (NodeTrace.mk "t1" "hello")).1 (by decide)).1,
   (c1_amended initialVizState "e-unknown-edge" "ghost" "ghost" true
      (NodeStateFlags.mk (some true) none) (NodeTrace.mk "t1" "hello")).2.1 (by decide),
   (c1_amended initialVizState "e-unknown-edge" "ghost" "ghost" true
      (NodeStateFlags.mk (some true) none) (NodeTrace.mk "t1" "hello")).2.2 (by decide),
   ((c1_amended initialVizState "e-unknown-edge" "ghost" "ghost" true
      (NodeStateFlags.mk (some true) none) (NodeTrace.mk "t1" "hello")).1 (by decide)).2.2⟩

/-- C2 (amended): the graph has exactly four fixed edges, wiring
user to supervisor, supervisor to each of loanApplicant and broker, and
supervisor to response (the last reused for the final reply); the node
set is the fixed five; and none of the four imperative visualization
methods, nor the edge-stats display sync, adds or removes a node or an
edge. -/
theorem c2_amended :
    createInitialLoanEdges.map FlowEdge.id =
      ["e-user-supervisor", "e-supervisor-loanApplicant",
       "e-supervisor-broker", "e-supervisor-response"] ∧
    createInitialLoanEdges.map (fun e => (e.source, e.target)) =
      [("user", "supervisor"), ("supervisor", "loanApplicant"),
       ("supervisor", "broker"), ("supervisor", "response")] ∧
    createInitialLoanNodes.map CustomNode.id =
      ["user", "supervisor", "loanApplicant", "broker", "response"] ∧
    (∀ (st : VizState) (e : String) (b : Bool),
      (updateEdgeAnimation e b st).edges = st.edges ∧
      (updateEdgeAnimation e b st).nodes = st.nodes) ∧
    (∀ (st : VizState) (e : String),
      (stateOr (incrementEdgeCount e st) st).edges = st.edges ∧
      (stateOr (incrementEdgeCount e st) st).nodes = st.nodes) ∧
    (∀ (st : VizState) (nid : String) (f : NodeStateFlags),
      (updateNodeState nid f st).edges = st.edges ∧
      (updateNodeState nid f st).nodes.map CustomNode.id = st.nodes.map CustomNode.id) ∧
    (∀ (st : VizState) (nid : String) (tr : NodeTrace),
      (stateOr (addNodeTrace nid tr st) st).edges = st.edges ∧
      (stateOr (addNodeTrace nid tr st) st).nodes = st.nodes) ∧
    (∀ (stats : List (String × EdgeStats)) (edges : List FlowEdge),
      (syncEdges stats edges).map FlowEdge.id = edges.map FlowEdge.id) := by
  refine ⟨rfl, rfl, rfl, ?_, ?_, ?_, ?_, ?_⟩
  · intro st e b
    exact ⟨updateEdgeAnimation_edges e b st, updateEdgeAnimation_nodes e b st⟩
  · intro st e
    unfold incrementEdgeCount stateOr
    cases rlookup st.edgeStats e <;> exact ⟨rfl, rfl⟩
  · intro st nid f
    refine ⟨rfl, ?_⟩
    unfold updateNodeState
    have : ∀ (l : List CustomNode),
        (l.map (fun node =>
          if node.id = nid then { node with data := mergeFlags node.data f } else node)).map
            CustomNode.id = l.map CustomNode.id := by
      intro l
      induction l with
      | nil => rfl
      | cons a rest ih =>
          by_cases ha : a.id = nid <;> simp [ha, ih]
    exact this st.nodes
  · intro st nid tr
    unfold addNodeTrace stateOr
    cases rlookup st.nodeDetailsMap nid <;> exact ⟨rfl, rfl⟩
  · intro stats edges
    unfold syncEdges
    induction edges with
    | nil => rfl
    | cons a rest ih => simp [ih]

/-- C2 (counterexample): the claim says the edge set has exactly five
entries; the fixed edge list the code builds has four. -/
theorem c2_counterexample :
    createInitialLoanEdges.length = 4 ∧ ¬createInitialLoanEdges.length = 5 :=
  ⟨rfl, by decide⟩

/-- C3: for every trace with action modelInvocationInput and no (truthy)
collaborator name, on a driving event without a bot reply, processing
succeeds, appends exactly one NodeTrace to the supervisor node iff the
trace text is non-empty, immediately animates the user-to-supervisor edge
and schedules its clear after the fixed 2000 ms delay (firing the
scheduled clear turns it off), and animates the supervisor-to-response
edge (for which no clear is scheduled). Empty or missing text suppresses
only the trace append, not the animation effects. -/
theorem c3_first_hop (now : String) (tr : TraceObj) (cd : Option ChatData) (st : VizState)
    (h1 : traceAction (some tr) = some "modelInvocationInput")
    (h2 : truthy (traceCollab (some tr)) = false)
    (h3 : truthy (chatBot cd) = false)
    (hsup : hasKey st.nodeDetailsMap "supervisor" = true) :
    isOk (handleTraceUpdate now (some tr) cd st) = true ∧
    actsOf (handleTraceUpdate now (some tr) cd st) =
      [DelayedClear.mk 2000 "e-user-supervisor"] ∧
    (tracesOf (vizOf (handleTraceUpdate now (some tr) cd st) st) "supervisor").length =
      (tracesOf st "supervisor").length +
        (if truthy (traceText (some tr)) = true then 1 else 0) ∧
    isAnimatedOf (vizOf (handleTraceUpdate now (some tr) cd st) st) "e-user-supervisor" =
      some true ∧
    isAnimatedOf (vizOf (handleTraceUpdate now (some tr) cd st) st) "e-supervisor-response" =
      some true ∧
    isAnimatedOf (runDelayedClear (DelayedClear.mk 2000 "e-user-supervisor")
        (vizOf (handleTraceUpdate now (some tr) cd st) st)) "e-user-supervisor" =
      some false := by
  obtain ⟨d, hd⟩ := (hasKey_iff_exists _ _).1 hsup
  obtain ⟨st3, hrun, htr, ha1, ha2, _, _, _⟩ :=
    classifyTrace_input_spec now (some tr) st d h1 h2 hd
  rw [handleTraceUpdate_nobot now (some tr) cd st h3, hrun]
  simp only [isOk, actsOf, vizOf]
  exact ⟨by trivial, by trivial, htr, ha1, ha2,
    isAnimatedOf_updateEdgeAnimation_self "e-user-supervisor" false st3⟩

/-- C3 (witness): the first-hop rule evaluated from the initial state on a
concrete modelInvocationInput trace with text "Hello" and no collaborator,
on a driving event without a bot reply. -/
theorem c3_first_hop_witness :
    isOk (handleTraceUpdate "t0"
      (some (TraceObj.mk (some (TraceContent.mk (some "modelInvocationInput") none
        (some "Hello"))))) none initialVizState) = true ∧
    actsOf (handleTraceUpdate "t0"
      (some (TraceObj.mk (some (TraceContent.mk (some "modelInvocationInput") none
        (some "Hello"))))) none initialVizState) =
      [DelayedClear.mk 2000 "e-user-supervisor"] ∧
    (tracesOf (vizOf (handleTraceUpdate "t0"
      (some (TraceObj.mk (some (TraceContent.mk (some "modelInvocationInput") none
        (some "Hello"))))) none initialVizState) initialVizState) "supervisor").length =
      (tracesOf initialVizState "supervisor").length +
        (if truthy (traceText (some (TraceObj.mk (some (TraceContent.mk
          (some "modelInvocationInput") none (some "Hello")))))) = true then 1 else 0) ∧
    isAnimatedOf (vizOf (handleTraceUpdate "t0"
      (some (TraceObj.mk (some (TraceContent.mk (some "modelInvocationInput") none
        (some "Hello"))))) none initialVizState) initialVizState) "e-user-supervisor" =
      some true ∧
    isAnimatedOf (vizOf (handleTraceUpdate "t0"
      (some (TraceObj.mk (some (TraceContent.mk (some "modelInvocationInput") none
        (some "Hello"))))) none initialVizState) initialVizState) "e-supervisor-response" =
      some true ∧
    isAnimatedOf (runDelayedClear (DelayedClear.mk 2000 "e-user-supervisor")
        (vizOf (handleTraceUpdate "t0"
          (some (TraceObj.mk (some (TraceContent.mk (some "modelInvocationInput") none
            (some "Hello"))))) none initialVizState) initialVizState)) "e-user-supervisor" =
      some false :=
  c3_first_hop "t0"
    (TraceObj.mk (some (TraceContent.mk (some "modelInvocationInput") none (some "Hello"))))
    none initialVizState rfl rfl rfl (by decide)

/-- C4: for every trace with action modelInvocationOutput and a (truthy)
collaborator name, on a driving event without a bot reply: the name maps
to loanApplicant exactly when it equals the loan-applicant constant and
to broker otherwise; processing succeeds, increments the call count of
the supervisor-to-node edge by exactly one, animates that edge and
schedules its 2000 ms clear (firing the clear turns it off), leaves the
other collaborator edge-stats entry and node-details entry unchanged, and
appends a trace to the addressed node iff the text is non-empty. -/
theorem c4_collaborator_routing (now : String) (tr : TraceObj) (cd : Option ChatData)
    (st : VizState) (nodeId other : String) (n : Nat)
    (h1 : traceAction (some tr) = some "modelInvocationOutput")
    (h2 : truthy (traceCollab (some tr)) = true)
    (h3 : truthy (chatBot cd) = false)
    (hnid : nodeId = if traceCollab (some tr) = some "loan_application_assistant_agent"
                     then "loanApplicant" else "broker")
    (hother : other = if nodeId = "loanApplicant" then "broker" else "loanApplicant")
    (hnd : hasKey st.nodeDetailsMap nodeId = true)
    (hcount : callCountOf st ("e-supervisor-" ++ nodeId) = some (JsNum.num n)) :
    isOk (handleTraceUpdate now (some tr) cd st) = true ∧
    actsOf (handleTraceUpdate now (some tr) cd st) =
      [DelayedClear.mk 2000 ("e-supervisor-" ++ nodeId)] ∧
    callCountOf (vizOf (handleTraceUpdate now (some tr) cd st) st)
      ("e-supervisor-" ++ nodeId) = some (JsNum.num (n + 1)) ∧
    isAnimatedOf (vizOf (handleTraceUpdate now (some tr) cd st) st)
      ("e-supervisor-" ++ nodeId) = some true ∧
    isAnimatedOf (runDelayedClear (DelayedClear.mk 2000 ("e-supervisor-" ++ nodeId))
      (vizOf (handleTraceUpdate now (some tr) cd st) st)) ("e-supervisor-" ++ nodeId) =
      some false ∧
    rlookup (vizOf (handleTraceUpdate now (some tr) cd st) st).edgeStats
      ("e-supervisor-" ++ other) = rlookup st.edgeStats ("e-supervisor-" ++ other) ∧
    rlookup (vizOf (handleTraceUpdate now (some tr) cd st) st).nodeDetailsMap other =
      rlookup st.nodeDetailsMap other ∧
    (tracesOf (vizOf (handleTraceUpdate now (some tr) cd st) st) nodeId).length =
      (tracesOf st nodeId).length +
        (if truthy (traceText (some tr)) = true then 1 else 0) := by
  obtain ⟨d, hd⟩ := (hasKey_iff_exists _ _).1 hnd
  have hpair : (nodeId = "loanApplicant" ∧ other = "broker") ∨
      (nodeId = "broker" ∧ other = "loanApplicant") := by
    by_cases hcl : traceCollab (some tr) = some "loan_application_assistant_agent"
    · have h4 : nodeId = "loanApplicant" := by rw [hnid, if_pos hcl]
      refine Or.inl ⟨h4, ?_⟩
      rw [hother, h4, if_pos rfl]
    · have h4 : nodeId = "broker" := by rw [hnid, if_neg hcl]
      refine Or.inr ⟨h4, ?_⟩
      rw [hother, h4, if_neg (by decide)]
  have hne_n : other ≠ nodeId := by
    rcases hpair with ⟨h4, h5⟩ | ⟨h4, h5⟩ <;> rw [h4, h5] <;> decide
  have hne_e : ("e-supervisor-" ++ other) ≠ ("e-supervisor-" ++ nodeId) := by
    rcases hpair with ⟨h4, h5⟩ | ⟨h4, h5⟩ <;> rw [h4, h5] <;> decide
  cases hre : rlookup st.edgeStats ("e-supervisor-" ++ nodeId) with
  | none =>
      unfold callCountOf at hcount
      rw [hre] at hcount
      simp at hcount
  | some es =>
      have hesc : es.callCount = some (JsNum.num n) := by
        unfold callCountOf at hcount
        rw [hre] at hcount
        simpa using hcount
      obtain ⟨st3, hrun, hcc, han, hoth_e, hoth_n, htr, _, _⟩ :=
        classifyTrace_output_collab_spec now (some tr) st nodeId d es h1 h2 hnid hd hre
      rw [handleTraceUpdate_nobot now (some tr) cd st h3, hrun]
      simp only [isOk, actsOf, vizOf]
      refine ⟨by trivial, by trivial, ?_, han, ?_, hoth_e _ hne_e, hoth_n _ hne_n, htr⟩
      · rw [hcc, hesc]
        rfl
      · exact isAnimatedOf_updateEdgeAnimation_self _ _ _

/-- C4 (witness): the collaborator rule evaluated from the initial state
on a concrete modelInvocationOutput trace whose collaborator is the
loan-applicant constant, with text "checked". -/
theorem c4_collaborator_routing_witness :
    isOk (handleTraceUpdate "t0"
      (some (TraceObj.mk (some (TraceContent.mk (some "modelInvocationOutput")
        (some "loan_application_assistant_agent") (some "checked"))))) none initialVizState)
      = true ∧
    actsOf (handleTraceUpdate "t0"
      (some (TraceObj.mk (some (TraceContent.mk (some "modelInvocationOutput")
        (some "loan_application_assistant_agent") (some "checked"))))) none initialVizState) =
      [DelayedClear.mk 2000 ("e-supervisor-" ++ "loanApplicant")] ∧
    callCountOf (vizOf (handleTraceUpdate "t0"
      (some (TraceObj.mk (some (TraceContent.mk (some "modelInvocationOutput")
        (some "loan_application_assistant_agent") (some "checked"))))) none initialVizState)
      initialVizState) ("e-supervisor-" ++ "loanApplicant") = some (JsNum.num (0 + 1)) ∧
    isAnimatedOf (vizOf (handleTraceUpdate "t0"
      (some (TraceObj.mk (some (TraceContent.mk (some "modelInvocationOutput")
        (some "loan_application_assistant_agent") (some "checked"))))) none initialVizState)
      initialVizState) ("e-supervisor-" ++ "loanApplicant") = some true ∧
    isAnimatedOf (runDelayedClear (DelayedClear.mk 2000 ("e-supervisor-" ++ "loanApplicant"))
      (vizOf (handleTraceUpdate "t0"
        (some (TraceObj.mk (some (TraceContent.mk (some "modelInvocationOutput")
          (some "loan_application_assistant_agent") (some "checked"))))) none initialVizState)
        initialVizState)) ("e-supervisor-" ++ "loanApplicant") = some false ∧
    rlookup (vizOf (handleTraceUpdate "t0"
      (some (TraceObj.mk (some (TraceContent.mk (some "modelInvocationOutput")
        (some "loan_application_assistant_agent") (some "checked"))))) none initialVizState)
      initialVizState).edgeStats ("e-supervisor-" ++ "broker") =
      rlookup initialVizState.edgeStats ("e-supervisor-" ++ "broker") ∧
    rlookup (vizOf (handleTraceUpdate "t0"
      (some (TraceObj.mk (some (TraceContent.mk (some "modelInvocationOutput")
        (some "loan_application_assistant_agent") (some "checked"))))) none initialVizState)
      initialVizState).nodeDetailsMap "broker" =
      rlookup initialVizState.nodeDetailsMap "broker" ∧
    (tracesOf (vizOf (handleTraceUpdate "t0"
      (some (TraceObj.mk (some (TraceContent.mk (some "modelInvocationOutput")
        (some "loan_application_assistant_agent") (some "checked"))))) none initialVizState)
      initialVizState) "loanApplicant").length =
      (tracesOf initialVizState "loanApplicant").length +
        (if truthy (traceText (some (TraceObj.mk (some (TraceContent.mk
          (some "modelInvocationOutput") (some "loan_application_assistant_agent")
          (some "checked")))))) = true then 1 else 0) :=
  c4_collaborator_routing "t0"
    (TraceObj.mk (some (TraceContent.mk (some "modelInvocationOutput")
      (some "loan_application_assistant_agent") (some "checked"))))
    none initialVizState "loanApplicant" "broker" 0 rfl rfl rfl (by decide) (by decide)
    (by decide) rfl

/-- C10: for every trace with action modelInvocationInput that carries a
truthy collaborator name, the classifier chain performs no visualization
update at all: without a bot reply the handler returns the state
unchanged with no scheduled timeouts; with a bot reply only the
independent final-response rule fires (the response node gains the reply
trace, the edge stats, node list and edge list stay unchanged, and only
the supervisor-to-response clear is scheduled). -/
theorem c10_frame (now : String) (tr : TraceObj) (cd : Option ChatData) (st : VizState)
    (h1 : traceAction (some tr) = some "modelInvocationInput")
    (h2 : truthy (traceCollab (some tr)) = true) :
    (truthy (chatBot cd) = false →
      handleTraceUpdate now (some tr) cd st = Except.ok (st, ([] : List DelayedClear))) ∧
    (truthy (chatBot cd) = true → hasKey st.nodeDetailsMap "response" = true →
      isOk (handleTraceUpdate now (some tr) cd st) = true ∧
      (vizOf (handleTraceUpdate now (some tr) cd st) st).edgeStats = st.edgeStats ∧
      (vizOf (handleTraceUpdate now (some tr) cd st) st).nodes = st.nodes ∧
      (vizOf (handleTraceUpdate now (some tr) cd st) st).edges = st.edges ∧
      tracesOf (vizOf (handleTraceUpdate now (some tr) cd st) st) "response" =
        tracesOf st "response" ++ [NodeTrace.mk now ((chatBot cd).getD "")] ∧
      actsOf (handleTraceUpdate now (some tr) cd st) =
        [DelayedClear.mk 2000 "e-supervisor-response"]) := by
  have hc1 : ¬(traceAction (some tr) = some "modelInvocationInput" ∧
      truthy (traceCollab (some tr)) = false) := by
    intro hc
    rw [h2] at hc
    exact absurd hc.2 (by decide)
  have hc2 : ¬(traceAction (some tr) = some "modelInvocationOutput" ∧
      truthy (traceCollab (some tr)) = true) := by
    intro hc
    rw [h1] at hc
    exact absurd hc.1 (by decide)
  have hc3 : ¬(traceAction (some tr) = some "modelInvocationOutput" ∧
      truthy (traceCollab (some tr)) = false) := by
    intro hc
    rw [h1] at hc
    exact absurd hc.1 (by decide)
  have hskip := classifyTrace_skip now (some tr) st hc1 hc2 hc3
  constructor
  · intro h3
    rw [handleTraceUpdate_nobot now (some tr) cd st h3, hskip]
  · intro h3 hres
    obtain ⟨dr, hdr⟩ := (hasKey_iff_exists _ _).1 hres
    obtain ⟨stD, hD, hDn, hDe, hDes, hDtr, _, _⟩ :=
      addNodeTrace_spec "response" (NodeTrace.mk now ((chatBot cd).getD "")) st dr hdr
    have hrun := handleTraceUpdate_bot now (some tr) cd st st stD [] h3 hskip hD
    simp only [List.nil_append] at hrun
    rw [hrun]
    simp only [isOk, vizOf, actsOf]
    exact ⟨by trivial, hDes, hDn, hDe, hDtr, by trivial⟩

/-- C10 (witness): the frame rule evaluated from the initial state on a
concrete modelInvocationInput trace that carries the loan-applicant
collaborator name, once on an event without a bot reply and once on an
event whose bot reply is "Done". -/
theorem c10_frame_witness :
    handleTraceUpdate "t0"
      (some (TraceObj.mk (some (TraceContent.mk (some "modelInvocationInput")
        (some "loan_application_assistant_agent") (some "x"))))) none initialVizState =
      Except.ok (initialVizState, ([] : List DelayedClear)) ∧
    tracesOf (vizOf (handleTraceUpdate "t0"
      (some (TraceObj.mk (some (TraceContent.mk (some "modelInvocationInput")
        (some "loan_application_assistant_agent") (some "x")))))
      (some (ChatData.mk (some (ChatMsg.mk "c1" (some "hi") (some "Done") none "ts"))))
      initialVizState) initialVizState) "response" =
      tracesOf initialVizState "response" ++
        [NodeTrace.mk "t0" ((chatBot (some (ChatData.mk (some
          (ChatMsg.mk "c1" (some "hi") (some "Done") none "ts"))))).getD "")] :=
  ⟨(c10_frame "t0"
      (TraceObj.mk (some (TraceContent.mk (some "modelInvocationInput")
        (some "loan_application_assistant_agent") (some "x"))))
      none initialVizState rfl rfl).1 rfl,
   ((c10_frame "t0"
      (TraceObj.mk (some (TraceContent.mk (some "modelInvocationInput")
        (some "loan_application_assistant_agent") (some "x"))))
      (some (ChatData.mk (some (ChatMsg.mk "c1" (some "hi") (some "Done") none "ts"))))
      initialVizState rfl rfl).2 rfl (by decide)).2.2.2.2.1⟩

theorem handleTraceUpdate_bot_spec (now : String) (tr : Option TraceObj) (cd : Option ChatData)
    (st : VizState) (hWF : WF st) (hbot : truthy (chatBot cd) = true) :
    ∃ stD acts, handleTraceUpdate now tr cd st =
        Except.ok (stD, acts ++ [DelayedClear.mk 2000 "e-supervisor-response"]) ∧
      tracesOf stD "response" =
        tracesOf st "response" ++ [NodeTrace.mk now ((chatBot cd).getD "")] := by
  obtain ⟨stC, acts, hC, hresp⟩ := classifyTrace_WF now tr st hWF
  have hkey : hasKey stC.nodeDetailsMap "response" = true := by
    unfold hasKey
    rw [hresp]
    exact hWF.2.2.2.2.2.2.2
  obtain ⟨dr, hdr⟩ := (hasKey_iff_exists _ _).1 hkey
  obtain ⟨stD, hD, _, _, _, hDtr, _, _⟩ :=
    addNodeTrace_spec "response" (NodeTrace.mk now ((chatBot cd).getD "")) stC dr hdr
  refine ⟨stD, acts, handleTraceUpdate_bot now tr cd st stC stD acts hbot hC hD, ?_⟩
  rw [hDtr]
  unfold tracesOf
  rw [hresp]

/-- C5 (amended): for every driving event that carries a bot reply AND a
truthy payload string that parses as JSON, a NodeTrace carrying the reply
text is appended to the response node, the last scheduled timeout is the
2000 ms clear of the supervisor-to-response edge animation, and firing
that timeout turns the animation off. -/
theorem c5_final_response (parse : String → Except String ParsedPayload) (now : String)
    (data : Option ChatData) (st : VizState) (pp : ParsedPayload)
    (hWF : WF st)
    (hpay : truthy (chatPayload data) = true)
    (hparse : parse ((chatPayload data).getD "") = Except.ok pp)
    (hbot : truthy (chatBot data) = true) :
    tracesOf (onSubscriptionNext parse now data st).1 "response" =
      tracesOf st "response" ++ [NodeTrace.mk now ((chatBot data).getD "")] ∧
    (onSubscriptionNext parse now data st).2.getLast? =
      some (DelayedClear.mk 2000 "e-supervisor-response") ∧
    isAnimatedOf (runDelayedClear (DelayedClear.mk 2000 "e-supervisor-response")
      (onSubscriptionNext parse now data st).1) "e-supervisor-response" = some false := by
  have hmain : ∃ stD acts, onSubscriptionNext parse now data st =
      (stD, acts ++ [DelayedClear.mk 2000 "e-supervisor-response"]) ∧
      tracesOf stD "response" =
        tracesOf st "response" ++ [NodeTrace.mk now ((chatBot data).getD "")] := by
    unfold onSubscriptionNext
    rw [if_pos hpay, hparse, ok_bind]
    by_cases hts : pp.trace.isSome = true
    · obtain ⟨stD, acts, hrun, htr⟩ :=
        handleTraceUpdate_bot_spec now pp.trace data st hWF hbot
      rw [if_pos hts, hrun]
      exact ⟨stD, acts, rfl, htr⟩
    · obtain ⟨stD, acts, hrun, htr⟩ :=
        handleTraceUpdate_bot_spec now none data st hWF hbot
      rw [if_neg hts, if_pos hbot, hrun]
      exact ⟨stD, acts, rfl, htr⟩
  obtain ⟨stD, acts, heq, htr⟩ := hmain
  rw [heq]
  refine ⟨htr, ?_, isAnimatedOf_updateEdgeAnimation_self _ _ _⟩
  simp

/-- C5 (counterexample): the claim as stated promises the response append
for every driving event with a bot reply, however the subscription handler
gates all trace processing on a truthy payload: an event whose bot reply
is "Approved" but whose payload is absent leaves the visualization state
untouched and schedules nothing, and the response node history stays
empty. -/
theorem c5_counterexample :
    onSubscriptionNext (fun _ => Except.error "SyntaxError: Unexpected token") "t0"
      (some (ChatData.mk (some (ChatMsg.mk "c1" (some "hi") (some "Approved") none "ts"))))
      initialVizState = (initialVizState, []) ∧
    tracesOf initialVizState "response" = [] :=
  ⟨rfl, rfl⟩

/-- C5 (witness): the amended final-response rule evaluated from the
initial state on an event with bot reply "Approved" and payload "x",
under a parse function that accepts everything as an empty payload. -/
theorem c5_final_response_witness :
    tracesOf (onSubscriptionNext (fun _ => Except.ok (ParsedPayload.mk none none)) "t0"
      (some (ChatData.mk (some (ChatMsg.mk "c1" (some "hi") (some "Approved")
        (some "x") "ts")))) initialVizState).1 "response" =
      tracesOf initialVizState "response" ++
        [NodeTrace.mk "t0" ((chatBot (some (ChatData.mk (some (ChatMsg.mk "c1" (some "hi")
          (some "Approved") (some "x") "ts"))))).getD "")] ∧
    (onSubscriptionNext (fun _ => Except.ok (ParsedPayload.mk none none)) "t0"
      (some (ChatData.mk (some (ChatMsg.mk "c1" (some "hi") (some "Approved")
        (some "x") "ts")))) initialVizState).2.getLast? =
      some (DelayedClear.mk 2000 "e-supervisor-response") ∧
    isAnimatedOf (runDelayedClear (DelayedClear.mk 2000 "e-supervisor-response")
      (onSubscriptionNext (fun _ => Except.ok (ParsedPayload.mk none none)) "t0"
        (some (ChatData.mk (some (ChatMsg.mk "c1" (some "hi") (some "Approved")
          (some "x") "ts")))) initialVizState).1) "e-supervisor-response" = some false :=
  c5_final_response (fun _ => Except.ok (ParsedPayload.mk none none)) "t0"
    (some (ChatData.mk (some (ChatMsg.mk "c1" (some "hi") (some "Approved")
      (some "x") "ts")))) initialVizState (ParsedPayload.mk none none)
    ⟨rfl, rfl, rfl, rfl, rfl, rfl, rfl, rfl⟩ rfl rfl rfl

/-- C6: for every delivered event whose payload string fails to parse as
JSON, the subscription handler does not throw (the catch absorbs the
error), the visualization state is unchanged and no timeout is scheduled,
and any subsequent event is processed exactly as it would have been
before the malformed one. -/
theorem c6_malformed_payload (parse : String → Except String ParsedPayload) (now : String)
    (data : Option ChatData) (st : VizState) (p e : String)
    (h1 : chatPayload data = some p)
    (h2 : parse p = Except.error e) :
    onSubscriptionNext parse now data st = (st, []) ∧
    (∀ (parse2 : String → Except String ParsedPayload) (now2 : String)
      (data2 : Option ChatData),
      onSubscriptionNext parse2 now2 data2 (onSubscriptionNext parse now data st).1 =
        onSubscriptionNext parse2 now2 data2 st) := by
  have hfirst : onSubscriptionNext parse now data st = (st, []) := by
    by_cases hp : truthy (chatPayload data) = true
    · unfold onSubscriptionNext
      rw [if_pos hp]
      have hgetd : (chatPayload data).getD "" = p := by rw [h1]; rfl
      rw [hgetd, h2, err_bind]
    · unfold onSubscriptionNext
      rw [if_neg hp]
      rfl
  refine ⟨hfirst, ?_⟩
  intro parse2 now2 data2
  rw [hfirst]

/-- C6 (witness): a malformed payload "\x7bnot json" delivered from the
initial state under a parse function that rejects it, followed by a
second identical event, leaves the state unchanged both times. -/
theorem c6_malformed_payload_witness :
    onSubscriptionNext (fun _ => Except.error "SyntaxError: Unexpected token") "t0"
      (some (ChatData.mk (some (ChatMsg.mk "c1" (some "hi") none
        (some "\x7bnot json") "ts")))) initialVizState = (initialVizState, []) ∧
    onSubscriptionNext (fun _ => Except.error "SyntaxError: Unexpected token") "t1"
      (some (ChatData.mk (some (ChatMsg.mk "c2" (some "again") none
        (some "\x7bnot json") "ts2"))))
      (onSubscriptionNext (fun _ => Except.error "SyntaxError: Unexpected token") "t0"
        (some (ChatData.mk (some (ChatMsg.mk "c1" (some "hi") none
          (some "\x7bnot json") "ts")))) initialVizState).1 =
      onSubscriptionNext (fun _ => Except.error "SyntaxError: Unexpected token") "t1"
        (some (ChatData.mk (some (ChatMsg.mk "c2" (some "again") none
          (some "\x7bnot json") "ts2")))) initialVizState :=
  ⟨(c6_malformed_payload (fun _ => Except.error "SyntaxError: Unexpected token") "t0"
      (some (ChatData.mk (some (ChatMsg.mk "c1" (some "hi") none
        (some "\x7bnot json") "ts")))) initialVizState "\x7bnot json"
      "SyntaxError: Unexpected token" rfl rfl).1,
   (c6_malformed_payload (fun _ => Except.error "SyntaxError: Unexpected token") "t0"
      (some (ChatData.mk (some (ChatMsg.mk "c1" (some "hi") none
        (some "\x7bnot json") "ts")))) initialVizState "\x7bnot json"
      "SyntaxError: Unexpected token" rfl rfl).2
      (fun _ => Except.error "SyntaxError: Unexpected token") "t1"
      (some (ChatData.mk (some (ChatMsg.mk "c2" (some "again") none
        (some "\x7bnot json") "ts2"))))⟩

theorem foldl_push_eq_filter_map (cs : List ChatMsg) (acc : List DisplayedTurn) :
    cs.foldl (fun a c => if truthy c.human = true then a ++ [toDisplayedTurn c] else a) acc =
      acc ++ (cs.filter (fun c => truthy c.human)).map toDisplayedTurn := by
  induction cs generalizing acc with
  | nil => simp
  | cons c rest ih =>
      by_cases hc : truthy c.human = true
      · simp [List.foldl_cons, hc, List.filter_cons, ih]
      · have hc2 : truthy c.human = false := by
          revert hc
          cases truthy c.human <;> simp
        simp [List.foldl_cons, hc2, List.filter_cons, ih]

theorem chatStep_human_count_mono (cs cs2 : List ChatMsg) (h : ChatStep cs cs2) :
    (cs.filter (fun c => truthy c.human)).length ≤
      (cs2.filter (fun c => truthy c.human)).length := by
  cases h with
  | append cs c =>
      rw [List.filter_append]
      simp
  | completeBot pre post c b hb =>
      have hhum : ({ c with bot := some b } : ChatMsg).human = c.human := rfl
      apply le_of_eq
      rw [List.filter_append, List.filter_append, List.filter_cons, List.filter_cons, hhum]
      cases truthy c.human <;> simp

/-- C7: the displayed turn list is exactly the turns with a truthy human
utterance (so its length equals their count), and under the backend chat
evolution (appending turns and filling in bot replies) that length never
decreases over the session. -/
theorem c7_displayed_turns (cs cs2 : List ChatMsg)
    (h : Relation.ReflTransGen ChatStep cs cs2) :
    groupedMessages (some cs) =
      some ((cs.filter (fun c => truthy c.human)).map toDisplayedTurn) ∧
    ((groupedMessages (some cs)).getD []).length =
      (cs.filter (fun c => truthy c.human)).length ∧
    ((groupedMessages (some cs)).getD []).length ≤
      ((groupedMessages (some cs2)).getD []).length := by
  have hg : ∀ l : List ChatMsg, groupedMessages (some l) =
      some ((l.filter (fun c => truthy c.human)).map toDisplayedTurn) := by
    intro l
    unfold groupedMessages
    simp [foldl_push_eq_filter_map l []]
  have hlen : ∀ l : List ChatMsg, ((groupedMessages (some l)).getD []).length =
      (l.filter (fun c => truthy c.human)).length := by
    intro l
    rw [hg l]
    simp
  refine ⟨hg cs, hlen cs, ?_⟩
  rw [hlen cs, hlen cs2]
  induction h with
  | refl => exact le_refl _
  | tail hab hbc ih => exact le_trans ih (chatStep_human_count_mono _ _ hbc)

/-- C7 (witness): a one-turn session extended by an appended turn; the
displayed list is the single human turn and its length does not
decrease. -/
theorem c7_displayed_turns_witness :
    groupedMessages (some [ChatMsg.mk "c1" (some "hi") none none "t1"]) =
      some (([ChatMsg.mk "c1" (some "hi") none none "t1"].filter
        (fun c => truthy c.human)).map toDisplayedTurn) ∧
    ((groupedMessages (some [ChatMsg.mk "c1" (some "hi") none none "t1"])).getD []).length =
      ([ChatMsg.mk "c1" (some "hi") none none "t1"].filter
        (fun c => truthy c.human)).length ∧
    ((groupedMessages (some [ChatMsg.mk "c1" (some "hi") none none "t1"])).getD []).length ≤
      ((groupedMessages (some ([ChatMsg.mk "c1" (some "hi") none none "t1"] ++
        [ChatMsg.mk "c2" (some "more") none none "t2"]))).getD []).length :=
  c7_displayed_turns [ChatMsg.mk "c1" (some "hi") none none "t1"]
    ([ChatMsg.mk "c1" (some "hi") none none "t1"] ++
      [ChatMsg.mk "c2" (some "more") none none "t2"])
    (Relation.ReflTransGen.single
      (ChatStep.append [ChatMsg.mk "c1" (some "hi") none none "t1"]
        (ChatMsg.mk "c2" (some "more") none none "t2")))

/-- C8 (amended): a document whose name classifies as PDF renders as the
link-with-icon preview; every other document, whether it classifies as an
image or as unknown, renders as the clickable thumbnail preview; no
document ever renders as a plain label. -/
theorem c8_amended (doc : DocumentT) :
    (getFileType doc.id = FileType.pdf →
      renderDocumentPreview doc = Preview.pdfLink doc.title doc.imageUrl) ∧
    (¬getFileType doc.id = FileType.pdf →
      renderDocumentPreview doc = Preview.thumbnail doc.title doc.imageUrl) ∧
    ¬renderedPreviewKind doc = PreviewKind.plainLabel := by
  refine ⟨?_, ?_, ?_⟩
  · intro h
    unfold renderDocumentPreview
    rw [if_pos h]
  · intro h
    unfold renderDocumentPreview
    rw [if_neg h]
  · unfold renderedPreviewKind
    cases renderDocumentPreview doc <;> simp

/-- C8 (counterexample): the claim says a file of any type other than PDF
or image renders as a plain label; the document "report.txt" classifies
as unknown, yet the code renders it with the thumbnail preview, because
the render function has no third branch. -/
theorem c8_counterexample :
    getFileType "report.txt" = FileType.unknown ∧
    renderedPreviewKind (DocumentT.mk "report.txt" "Report" "u") = PreviewKind.thumbnail ∧
    specPreviewKind (DocumentT.mk "report.txt" "Report" "u") = PreviewKind.plainLabel ∧
    ¬PreviewKind.thumbnail = PreviewKind.plainLabel := by
  refine ⟨by decide, by decide, by decide, by decide⟩

/-- C8 (witness): the amended rendering rule evaluated on a PDF document
and on a plain-text document. -/
theorem c8_amended_witness :
    renderDocumentPreview (DocumentT.mk "summary.pdf" "Summary" "u1") =
      Preview.pdfLink "Summary" "u1" ∧
    renderDocumentPreview (DocumentT.mk "notes.txt" "Notes" "u2") =
      Preview.thumbnail "Notes" "u2" :=
  ⟨(c8_amended (DocumentT.mk "summary.pdf" "Summary" "u1")).1 (by decide),
   (c8_amended (DocumentT.mk "notes.txt" "Notes" "u2")).2.1 (by decide)⟩

theorem deliverAll_of_no_sub (s : FeedCtl) (evs : List (List ChatMsg))
    (hs : s.subs = []) : deliverAll s evs = s := by
  induction evs with
  | nil => rfl
  | cons cs2 rest ih =>
      have hstep : feedStep s (FeedEvent.deliver cs2) = s := by
        unfold feedStep
        rw [hs]
        rfl
      calc deliverAll s (cs2 :: rest)
          = deliverAll (feedStep s (FeedEvent.deliver cs2)) rest := rfl
        _ = deliverAll s rest := by rw [hstep]
        _ = s := ih

/-- C9: mounting from the unmounted state opens exactly one subscription;
an identity change tears the open subscription down and opens a fresh one
for the new identity; unmounting tears it down; and once no subscription
is open, any sequence of delivered events leaves the controller, and in
particular the chat list driving the displayed turns, unchanged. -/
theorem c9_subscription_lifecycle (s : FeedCtl) (u u2 : String) (cs : List ChatMsg)
    (evs : List (List ChatMsg)) :
    (feedStep (FeedCtl.mk [] cs) (FeedEvent.mount u)).subs = [u] ∧
    (s.subs = [u] → (feedStep s (FeedEvent.identityChange u2)).subs = [u2]) ∧
    (s.subs = [u] → (feedStep s FeedEvent.unmount).subs = []) ∧
    (s.subs = [] → deliverAll s evs = s) := by
  refine ⟨rfl, ?_, ?_, deliverAll_of_no_sub s evs⟩
  · intro hs
    unfold feedStep
    rw [hs]
    rfl
  · intro hs
    unfold feedStep
    rw [hs]
    rfl

/-- C9 (witness): the lifecycle rules evaluated concretely: mounting for
"alice", changing identity to "bob", unmounting, and two deliveries after
teardown. -/
theorem c9_subscription_lifecycle_witness :
    (feedStep (FeedCtl.mk [] []) (FeedEvent.mount "alice")).subs = ["alice"] ∧
    (feedStep (FeedCtl.mk ["alice"] []) (FeedEvent.identityChange "bob")).subs = ["bob"] ∧
    (feedStep (FeedCtl.mk ["alice"] []) FeedEvent.unmount).subs = [] ∧
    deliverAll (FeedCtl.mk [] [ChatMsg.mk "c1" (some "hi") none none "t1"])
      [[ChatMsg.mk "c2" (some "x") none none "t2"], []] =
      FeedCtl.mk [] [ChatMsg.mk "c1" (some "hi") none none "t1"] :=
  ⟨(c9_subscription_lifecycle (FeedCtl.mk [] []) "alice" "bob" [] []).1,
   (c9_subscription_lifecycle (FeedCtl.mk ["alice"] []) "alice" "bob" [] []).2.1 rfl,
   (c9_subscription_lifecycle (FeedCtl.mk ["alice"] []) "alice" "bob" [] []).2.2.1 rfl,
   (c9_subscription_lifecycle (FeedCtl.mk [] [ChatMsg.mk "c1" (some "hi") none none "t1"])
      "alice" "bob" []
      [[ChatMsg.mk "c2" (some "x") none none "t2"], []]).2.2.2 rfl⟩

end LoanFlow
